import Mathlib

/-!
Shallow embedding of the maker server startup and event-dispatch code
(src/go/server/servermain.go) together with the parts of the trade service
and exchange-info service that the specification describes.

Side-effecting Go code is embedded as pure functions that return the list
of observable actions an execution performs, in program order; external
outcomes (a database write failing, a network request failing) are passed
in as explicit parameters.
-/

namespace Maker

/-! ## User-data stream events (binanceex.StreamEvent as consumed by ServerMain) -/

/-- Event types carried by the user-data stream.  The dispatch switch in
ServerMain only distinguishes EventTypeExecutionReport from everything
else, so all other Binance event types are represented by the remaining
constructors. -/
inductive UserDataEventType where
  | executionReport
  | balanceUpdate
  | outboundAccountInfo
  | other
deriving DecidableEq, Repr

/-- An event delivered on the user-data stream channel: its type, its event
time (milliseconds) and the raw payload text. -/
structure UserStreamEvent where
  eventType : UserDataEventType
  eventTime : Nat
  raw : String
deriving DecidableEq, Repr

/-- Observable actions of one iteration of the user-stream dispatch
goroutine in ServerMain (lines 161-174). -/
inductive DispatchAction where
  | dbSaveRawExecutionReport (eventTime : Nat) (raw : String)
  | logSaveError
  | onExecutionReport (e : UserStreamEvent)
deriving DecidableEq, Repr

/-- One iteration of the dispatch loop in ServerMain: receive `e` from the
user stream channel and switch on its event type.  For an execution
report the code calls db.DbSaveBinanceRawExecutionReport(event.EventTime,
event.Raw); `saveErr` tells whether that call returned an error, in which
case the error is logged; then tradeService.OnExecutionReport(event) is
called.  Every other event type falls through the switch with no action. -/
def dispatchUserStreamEvent (saveErr : Bool) (e : UserStreamEvent) : List DispatchAction :=
  match e.eventType with
  | .executionReport =>
      (if saveErr then
        [.dbSaveRawExecutionReport e.eventTime e.raw, .logSaveError]
      else
        [.dbSaveRawExecutionReport e.eventTime e.raw])
      ++ [.onExecutionReport e]
  | _ => []

/-! ## Server startup (ServerMain, lines 70-159) -/

/-- The ServerFlags package variable read by ServerMain.  Fields not
consulted before the HTTP server starts are still carried for fidelity. -/
structure ServerFlagsT where
  host : String
  port : Int
  noLog : Bool
  openBrowser : Bool
  tls : Bool
  itsAllMyFault : Bool
  enableAuth : Bool
deriving DecidableEq, Repr

/-- The observable steps of ServerMain from entry to the point where the
background goroutines and the HTTP listener have been started, in
program order.  `fatal` is log.Fatalf: it terminates the process, so a
trace ends at its first `fatal`. -/
inductive StartupStep where
  | mkdirDataDirectory
  | fatal (msg : String)
  | addLogFileHook
  | genCert
  | newTradeStreamManager
  | dbOpen
  | newTradeService
  | restoreTrades
  | initExchangeInfoService
  | newPriceService
  | newUserDataStream
  | subscribeUserDataStream
  | runUserDataStream
  | newClientNoticeService
  | startClockSkewChecker
  | startDispatchLoop
  | startHttpServer
deriving DecidableEq, Repr

/-- The startup trace of ServerMain as a function of the flags and of the
environment outcomes it branches on: whether the data directory already
exists, whether creating it succeeds, and whether the TLS pem file
already exists.  Mirrors servermain.go lines 77-174 plus the listener
start; a log.Fatalf ends the trace. -/
def serverMainTrace (flags : ServerFlagsT)
    (dataDirExists mkdirOk pemExists : Bool) : List StartupStep :=
  if !dataDirExists && !mkdirOk then
    [StartupStep.mkdirDataDirectory, StartupStep.fatal "Failed to create data directory"]
  else
    (if dataDirExists then [] else [StartupStep.mkdirDataDirectory])
    ++ (if flags.noLog then [] else [StartupStep.addLogFileHook])
    ++ (if flags.host != "127.0.0.1" && !flags.enableAuth then
          [StartupStep.fatal "Authentication must be enabled"]
        else if flags.host != "127.0.0.1" && !flags.tls then
          [StartupStep.fatal "TLS must be enabled"]
        else if flags.host != "127.0.0.1" && !flags.itsAllMyFault then
          [StartupStep.fatal "Secret command line argument not set"]
        else
          (if flags.tls && !pemExists then [StartupStep.genCert] else [])
          ++ [StartupStep.newTradeStreamManager,
              StartupStep.dbOpen,
              StartupStep.newTradeService,
              StartupStep.restoreTrades,
              StartupStep.initExchangeInfoService,
              StartupStep.newPriceService,
              StartupStep.newUserDataStream,
              StartupStep.subscribeUserDataStream,
              StartupStep.runUserDataStream,
              StartupStep.newClientNoticeService,
              StartupStep.startClockSkewChecker,
              StartupStep.startDispatchLoop,
              StartupStep.startHttpServer])

/-- True when the startup trace ends in a log.Fatalf, that is, the process
terminated at that point. -/
def endsFatally : List StartupStep → Bool
  | [] => false
  | [StartupStep.fatal _] => true
  | [_] => false
  | _ :: s :: rest => endsFatally (s :: rest)

/-! ## Clock-skew checker goroutine (ServerMain, lines 130-159) -/

/-- Severity levels of a client notice (clientnotificationservice). -/
inductive ClientNoticeLevel where
  | info
  | warning
  | error
deriving DecidableEq, Repr

/-- Observable actions of one iteration of the clock-skew checking
goroutine. -/
inductive ClockAction where
  | logGetTimeError
  | logWarnTimeDifference
  | logInfoTimeCheck
  | broadcastNotice (level : ClientNoticeLevel)
  | sleepMinutes (n : Nat)
  | returnError
  | fatalExit
deriving DecidableEq, Repr

/-- One iteration of the clock-skew loop.  `getTime` is the outcome of
client.GetTime(): an error, or the exchange server time in milliseconds;
`localNowMs` is the local wall clock in milliseconds at the comparison.
On a transport error the code logs it, sleeps one minute and continues.
On success the code compares the absolute difference (the Go source
computes math.Abs over the float64 of an int64 millisecond difference,
which is exact at these magnitudes, so integer absolute value is the
faithful embedding): above 999 it logs a warning and broadcasts a
warning client notice, otherwise it logs at info level; either way it
then sleeps one minute.  No branch returns an error or exits. -/
def clockSkewIteration (getTime : Except Unit Int) (localNowMs : Int) :
    List ClockAction :=
  match getTime with
  | .error _ => [ClockAction.logGetTimeError, ClockAction.sleepMinutes 1]
  | .ok serverTime =>
      if 999 < (localNowMs - serverTime).natAbs then
        [ClockAction.logWarnTimeDifference,
         ClockAction.broadcastNotice ClientNoticeLevel.warning,
         ClockAction.sleepMinutes 1]
      else
        [ClockAction.logInfoTimeCheck, ClockAction.sleepMinutes 1]

/-! ## Exchange info service init and refresh (initBinanceExchangeInfoService, lines 54-68) -/

/-- Modelled from the spec: the snapshot held by
binanceex.ExchangeInfoService, an opaque per-symbol constraint table;
its internals are not needed, only whether and with what value it is
replaced.  NewExchangeInfoService starts with no snapshot. -/
structure ExchangeInfoService where
  snapshot : Option Nat
deriving DecidableEq, Repr

/-- Modelled from the spec: binanceex.NewExchangeInfoService creates the
service before any update has run. -/
def NewExchangeInfoService : ExchangeInfoService := ⟨none⟩

/-- Modelled from the spec: binanceex.ExchangeInfoService.Update fetches a
fresh snapshot; on success it replaces the held snapshot and returns no
error, and on refresh failure it "retains the previous snapshot and logs
the failure", returning the error.  The fetch outcome is the `result`
parameter; the Bool in the return value is whether an error was
returned. -/
def ExchangeInfoService.update (s : ExchangeInfoService)
    (result : Except Unit Nat) : ExchangeInfoService × Bool :=
  match result with
  | .error _ => (s, true)
  | .ok snap => (⟨some snap⟩, false)

/-- Observable actions of the exchange-info init function and of one
iteration of its background refresh goroutine. -/
inductive InfoAction where
  | callUpdate
  | logUpdateError
  | sleepMinutes (n : Nat)
  | terminate
deriving DecidableEq, Repr

/-- One iteration of the background refresh loop inside
initBinanceExchangeInfoService: sleep one minute, call Update() once,
and if it returned an error log it; then fall through to the next
iteration (nothing terminates). -/
def refreshIteration (s : ExchangeInfoService) (result : Except Unit Nat) :
    ExchangeInfoService × List InfoAction :=
  let out := s.update result
  (out.1,
    [InfoAction.sleepMinutes 1, InfoAction.callUpdate]
      ++ (if out.2 then [InfoAction.logUpdateError] else []))

/-- initBinanceExchangeInfoService: create the service, call Update() once
logging an error if it fails, start the refresh goroutine, and return
the service in either case. -/
def initBinanceExchangeInfoService (initResult : Except Unit Nat) :
    ExchangeInfoService × List InfoAction :=
  let out := NewExchangeInfoService.update initResult
  (out.1,
    [InfoAction.callUpdate]
      ++ (if out.2 then [InfoAction.logUpdateError] else []))

/-! ## Trade state machine event intake (tradeservice.OnExecutionReport) -/

/-- Trade lifecycle states named in the spec state machine. -/
inductive TradeStatus where
  | entryPending
  | opened
  | exitPending
  | closed
  | cancelled
  | abandoned
  | archived
deriving DecidableEq, Repr

/-- Modelled from the spec: the fill-relevant fields of a Trade (the
tradeservice package is not among the provided sources).  Entry: buy
order reference with filled quantity and average fill price; exit
execution mirrors the entry fields; quantities and prices are scaled
integers. -/
structure Trade where
  entryOrderId : Nat
  exitOrderId : Option Nat
  status : TradeStatus
  entryFillQty : Nat
  entryAvgPrice : Nat
  exitFillQty : Nat
  exitAvgPrice : Nat
deriving DecidableEq, Repr

/-- Modelled from the spec: a raw execution report as applied to a trade:
exchange order ID, cumulative fill quantity, resulting average price and
whether the resulting order status is fully filled. -/
structure ExecutionReport where
  orderId : Nat
  cumFillQty : Nat
  avgPrice : Nat
  fullyFilled : Bool
deriving DecidableEq, Repr

/-- Modelled from the spec: tradeservice.OnExecutionReport application of a
report to one trade (the tradeservice package is not among the provided
sources).  Locates the order by exchange order ID: if the report matches
neither the entry nor the exit order it has no further effect; a report
whose fill state is not newer than the recorded state of the matched
order is a no-op; otherwise it updates fill quantity and average price,
transitioning EntryPending to Open when the entry order becomes fully
filled, and ExitPending to Closed when the exit order becomes fully
filled. -/
def OnExecutionReport (t : Trade) (r : ExecutionReport) : Trade :=
  if r.orderId = t.entryOrderId then
    if r.cumFillQty ≤ t.entryFillQty then t
    else
      { t with
        entryFillQty := r.cumFillQty
        entryAvgPrice := r.avgPrice
        status :=
          if r.fullyFilled = true ∧ t.status = TradeStatus.entryPending then
            TradeStatus.opened
          else t.status }
  else if t.exitOrderId = some r.orderId then
    if r.cumFillQty ≤ t.exitFillQty then t
    else
      { t with
        exitFillQty := r.cumFillQty
        exitAvgPrice := r.avgPrice
        status :=
          if r.fullyFilled = true ∧ t.status = TradeStatus.exitPending then
            TradeStatus.closed
          else t.status }
  else t

end Maker

namespace Maker

/-! ## Claim theorems about the dispatch loop -/

/-- Claim C1: the claim states that when DbSaveBinanceRawExecutionReport
returns an error, tradeService.OnExecutionReport is not invoked.  The code
does the opposite: this theorem evaluates the dispatch loop at a concrete
execution-report event whose save fails and shows that OnExecutionReport
is still invoked (the in-memory mutation is applied despite the
persistence failure). -/
theorem dispatch_applies_mutation_despite_save_error :
    DispatchAction.onExecutionReport
        ⟨UserDataEventType.executionReport, 1000, "rawreport"⟩ ∈
      dispatchUserStreamEvent true
        ⟨UserDataEventType.executionReport, 1000, "rawreport"⟩ := by
  decide

/-- Claim C2: durability-before-apply ordering.  For every execution-report
event and either outcome of the database save, the action trace of the
dispatch iteration contains the raw-report save strictly before the
OnExecutionReport call (expressed as a sublist in order). -/
theorem dispatch_save_before_apply (saveErr : Bool) (e : UserStreamEvent)
    (h : e.eventType = UserDataEventType.executionReport) :
    [DispatchAction.dbSaveRawExecutionReport e.eventTime e.raw,
     DispatchAction.onExecutionReport e].Sublist
      (dispatchUserStreamEvent saveErr e) := by
  cases e with
  | mk t time raw =>
    cases saveErr <;> simp_all [dispatchUserStreamEvent]

/-- Witness for C2: the ordering theorem applied at a concrete event with a
failing save. -/
theorem dispatch_save_before_apply_witness :
    [DispatchAction.dbSaveRawExecutionReport 7 "x",
     DispatchAction.onExecutionReport ⟨UserDataEventType.executionReport, 7, "x"⟩].Sublist
      (dispatchUserStreamEvent true ⟨UserDataEventType.executionReport, 7, "x"⟩) :=
  dispatch_save_before_apply true ⟨UserDataEventType.executionReport, 7, "x"⟩ rfl

/-- Claim C3: every execution-report event is submitted to the persistent
store unconditionally.  The dispatch function takes no trade set and
performs no membership lookup; for every event whose type is
EventTypeExecutionReport and either save outcome, the save action with
the event time and raw payload is in the trace. -/
theorem dispatch_saves_every_execution_report (saveErr : Bool) (e : UserStreamEvent)
    (h : e.eventType = UserDataEventType.executionReport) :
    DispatchAction.dbSaveRawExecutionReport e.eventTime e.raw ∈
      dispatchUserStreamEvent saveErr e := by
  cases e with
  | mk t time raw =>
    cases saveErr <;> simp_all [dispatchUserStreamEvent]

/-- Witness for C3: the unconditional-save theorem applied at a concrete
execution-report event. -/
theorem dispatch_saves_every_execution_report_witness :
    DispatchAction.dbSaveRawExecutionReport 42 "payload" ∈
      dispatchUserStreamEvent false ⟨UserDataEventType.executionReport, 42, "payload"⟩ :=
  dispatch_saves_every_execution_report false
    ⟨UserDataEventType.executionReport, 42, "payload"⟩ rfl

/-- Claim C8: every user-data stream event whose type is not
EventTypeExecutionReport is silently discarded: the dispatch iteration
performs no action at all, so nothing is persisted and nothing is
forwarded to the trade service. -/
theorem dispatch_discards_other_events (saveErr : Bool) (e : UserStreamEvent)
    (h : e.eventType ≠ UserDataEventType.executionReport) :
    dispatchUserStreamEvent saveErr e = [] := by
  cases e with
  | mk t time raw =>
    cases t <;> simp_all [dispatchUserStreamEvent]

/-- Witness for C8: a balance-update event produces an empty action trace. -/
theorem dispatch_discards_other_events_witness :
    dispatchUserStreamEvent false ⟨UserDataEventType.balanceUpdate, 5, "bal"⟩ = [] :=
  dispatch_discards_other_events false ⟨UserDataEventType.balanceUpdate, 5, "bal"⟩
    (by decide)

/-! ## Claim theorems about server startup order -/

/-- Claim C4 counterexample: the claim states that the persistent store is
opened after the trade service is created.  In a concrete successful
startup (loopback host, data directory present), db.DbOpen occurs in the
trace but never after NewTradeService: the store is in fact opened
before the trade service is created. -/
theorem dbOpen_not_after_newTradeService :
    StartupStep.dbOpen ∈
      serverMainTrace ⟨"127.0.0.1", 8080, true, false, false, false, false⟩ true true true ∧
    ¬ [StartupStep.newTradeService, StartupStep.dbOpen].Sublist
        (serverMainTrace ⟨"127.0.0.1", 8080, true, false, false, false, false⟩ true true true) := by
  decide

/-- Claim C4 (amended): in every startup that passes the non-loopback guard
and in which the data directory is available, the trace performs, in this
order: open the persistent store, create the trade service, restore the
trades, subscribe to the user-data stream, run the stream.  So the store
is opened before (not after) the trade service is created, and
restoreTrades runs after the trade service is created and before the
user-data stream is subscribed to and run. -/
theorem startup_recovery_before_stream (flags : ServerFlagsT) (dde mko pe : Bool)
    (henv : dde = true ∨ mko = true)
    (hguard : flags.host = "127.0.0.1" ∨
      (flags.enableAuth = true ∧ flags.tls = true ∧ flags.itsAllMyFault = true)) :
    [StartupStep.dbOpen, StartupStep.newTradeService, StartupStep.restoreTrades,
     StartupStep.subscribeUserDataStream, StartupStep.runUserDataStream].Sublist
      (serverMainTrace flags dde mko pe) := by
  obtain ⟨host, port, noLog, ob, tls, fault, auth⟩ := flags
  rcases hguard with h | ⟨ha, ht, hf⟩
  · simp only at h
    subst h
    cases dde <;> cases mko <;> cases pe <;> cases noLog <;> cases tls <;>
      cases auth <;> cases fault <;> simp_all [serverMainTrace] <;> decide
  · simp only at ha ht hf
    subst ha; subst ht; subst hf
    cases dde <;> cases mko <;> cases pe <;> cases noLog <;>
      simp_all [serverMainTrace] <;> decide

/-- Witness for the amended C4: the ordering theorem applied to a concrete
loopback startup. -/
theorem startup_recovery_before_stream_witness :
    [StartupStep.dbOpen, StartupStep.newTradeService, StartupStep.restoreTrades,
     StartupStep.subscribeUserDataStream, StartupStep.runUserDataStream].Sublist
      (serverMainTrace ⟨"127.0.0.1", 8080, false, false, true, false, false⟩ false true false) :=
  startup_recovery_before_stream ⟨"127.0.0.1", 8080, false, false, true, false, false⟩
    false true false (Or.inr rfl) (Or.inl rfl)

/-- Claim C9: when the host is not 127.0.0.1 and any of EnableAuth, TLS or
ItsAllMyFault is unset, ServerMain terminates fatally and neither opens
the database nor creates any service; when the host is 127.0.0.1 (and the
data directory is available) startup proceeds past the guard regardless
of those three flags, with no fatal termination. -/
theorem serverMain_nonloopback_guard (flags : ServerFlagsT) (dde mko pe : Bool) :
    (flags.host ≠ "127.0.0.1" →
      (flags.enableAuth = false ∨ flags.tls = false ∨ flags.itsAllMyFault = false) →
      endsFatally (serverMainTrace flags dde mko pe) = true ∧
      StartupStep.dbOpen ∉ serverMainTrace flags dde mko pe ∧
      StartupStep.newTradeService ∉ serverMainTrace flags dde mko pe ∧
      StartupStep.initExchangeInfoService ∉ serverMainTrace flags dde mko pe) ∧
    (flags.host = "127.0.0.1" →
      (dde = true ∨ mko = true) →
      StartupStep.dbOpen ∈ serverMainTrace flags dde mko pe ∧
      StartupStep.newTradeService ∈ serverMainTrace flags dde mko pe ∧
      ∀ msg, StartupStep.fatal msg ∉ serverMainTrace flags dde mko pe) := by
  obtain ⟨host, port, noLog, ob, tls, fault, auth⟩ := flags
  constructor
  · intro hne hflag
    simp only at hne
    have hb : (host != "127.0.0.1") = true := by
      simpa [bne_iff_ne] using hne
    cases dde <;> cases mko <;> cases pe <;> cases noLog <;> cases tls <;>
      cases auth <;> cases fault <;>
      simp_all [serverMainTrace, endsFatally]
  · intro heq henv
    simp only at heq
    subst heq
    cases dde <;> cases mko <;> cases pe <;> cases noLog <;> cases tls <;>
      cases auth <;> cases fault <;> simp_all [serverMainTrace]

/-- Witness for C9: both branches of the guard theorem applied at concrete
inputs: a non-loopback host with TLS unset terminates fatally without
opening the store; the loopback host proceeds with all three flags unset. -/
theorem serverMain_nonloopback_guard_witness :
    (endsFatally (serverMainTrace ⟨"0.0.0.0", 8080, true, false, false, false, true⟩ true true true) = true ∧
     StartupStep.dbOpen ∉ serverMainTrace ⟨"0.0.0.0", 8080, true, false, false, false, true⟩ true true true ∧
     StartupStep.newTradeService ∉ serverMainTrace ⟨"0.0.0.0", 8080, true, false, false, false, true⟩ true true true ∧
     StartupStep.initExchangeInfoService ∉ serverMainTrace ⟨"0.0.0.0", 8080, true, false, false, false, true⟩ true true true) ∧
    (StartupStep.dbOpen ∈ serverMainTrace ⟨"127.0.0.1", 8080, true, false, false, false, false⟩ true true true ∧
     StartupStep.newTradeService ∈ serverMainTrace ⟨"127.0.0.1", 8080, true, false, false, false, false⟩ true true true ∧
     ∀ msg, StartupStep.fatal msg ∉ serverMainTrace ⟨"127.0.0.1", 8080, true, false, false, false, false⟩ true true true) :=
  ⟨(serverMain_nonloopback_guard ⟨"0.0.0.0", 8080, true, false, false, false, true⟩ true true true).1
      (by decide) (Or.inr (Or.inl rfl)),
   (serverMain_nonloopback_guard ⟨"127.0.0.1", 8080, true, false, false, false, false⟩ true true true).2
      rfl (Or.inl rfl)⟩

/-! ## Claim theorems about the clock-skew checker -/

/-- Claim C6: on a successful exchange time query, a warning client notice
is broadcast if and only if the absolute difference between local time
and the exchange server time exceeds 999 milliseconds; and no iteration
of the check loop, whatever the query outcome, returns an error or
terminates the process. -/
theorem clock_skew_notice_iff_large_difference (serverTime localNowMs : Int) :
    (ClockAction.broadcastNotice ClientNoticeLevel.warning ∈
        clockSkewIteration (Except.ok serverTime) localNowMs ↔
      999 < (localNowMs - serverTime).natAbs) ∧
    (∀ r : Except Unit Int,
      ClockAction.returnError ∉ clockSkewIteration r localNowMs ∧
      ClockAction.fatalExit ∉ clockSkewIteration r localNowMs) := by
  constructor
  · by_cases h : 999 < (localNowMs - serverTime).natAbs <;>
      simp [clockSkewIteration, h]
  · intro r
    cases r with
    | error e => simp [clockSkewIteration]
    | ok st =>
        by_cases h : 999 < (localNowMs - st).natAbs <;>
          simp [clockSkewIteration, h]

/-- Claim C10: when the exchange time request fails, the iteration logs the
error and sleeps one minute; no client notice of any level is broadcast
and the process is not terminated. -/
theorem clock_skew_transport_failure_retries (localNowMs : Int) :
    clockSkewIteration (Except.error ()) localNowMs =
      [ClockAction.logGetTimeError, ClockAction.sleepMinutes 1] ∧
    (∀ lvl, ClockAction.broadcastNotice lvl ∉
      clockSkewIteration (Except.error ()) localNowMs) ∧
    ClockAction.fatalExit ∉ clockSkewIteration (Except.error ()) localNowMs := by
  refine ⟨rfl, ?_, ?_⟩ <;> simp [clockSkewIteration]

/-! ## Claim theorem about the exchange info cache -/

/-- Claim C7: each refresh iteration calls Update() exactly once after a
one-minute sleep and never terminates; on an Update() failure the held
snapshot is unchanged (the service state is exactly what it was) and the
error is logged; and initBinanceExchangeInfoService returns the freshly
created service even when the initial Update() fails, logging the error
rather than terminating. -/
theorem exchange_info_refresh_resilience (s : ExchangeInfoService)
    (result : Except Unit Nat) :
    ((refreshIteration s result).2.count InfoAction.callUpdate = 1 ∧
     InfoAction.sleepMinutes 1 ∈ (refreshIteration s result).2 ∧
     InfoAction.terminate ∉ (refreshIteration s result).2) ∧
    ((refreshIteration s (Except.error ())).1 = s ∧
     InfoAction.logUpdateError ∈ (refreshIteration s (Except.error ())).2) ∧
    ((initBinanceExchangeInfoService (Except.error ())).1 = NewExchangeInfoService ∧
     InfoAction.logUpdateError ∈ (initBinanceExchangeInfoService (Except.error ())).2 ∧
     InfoAction.terminate ∉ (initBinanceExchangeInfoService (Except.error ())).2) := by
  refine ⟨⟨?_, ?_, ?_⟩, ⟨?_, ?_⟩, ?_, ?_, ?_⟩ <;>
    cases result <;>
      simp [refreshIteration, initBinanceExchangeInfoService,
        ExchangeInfoService.update, NewExchangeInfoService]

/-! ## Claim theorem about execution-report idempotence -/

/-- Claim C5: OnExecutionReport is idempotent: for every trade and report,
applying the same report twice yields the same trade as applying it
once; and a report whose fill state is not newer than the recorded fill
state of the order it matches is a no-op. -/
theorem onExecutionReport_idempotent (t : Trade) (r : ExecutionReport) :
    OnExecutionReport (OnExecutionReport t r) r = OnExecutionReport t r ∧
    (r.orderId = t.entryOrderId → r.cumFillQty ≤ t.entryFillQty →
      OnExecutionReport t r = t) ∧
    (r.orderId ≠ t.entryOrderId → t.exitOrderId = some r.orderId →
      r.cumFillQty ≤ t.exitFillQty → OnExecutionReport t r = t) := by
  obtain ⟨eid, xid, st, efq, eap, xfq, xap⟩ := t
  obtain ⟨oid, cq, ap, ff⟩ := r
  refine ⟨?_, ?_, ?_⟩
  · by_cases h1 : oid = eid
    · by_cases h2 : cq ≤ efq <;> simp [OnExecutionReport, h1, h2]
    · by_cases h3 : xid = some oid
      · by_cases h4 : cq ≤ xfq <;> simp [OnExecutionReport, h1, h3, h4]
      · simp [OnExecutionReport, h1, h3]
  · intro h1 h2
    simp only at h1 h2
    simp [OnExecutionReport, h1, h2]
  · intro h1 h3 h4
    simp only at h1 h3 h4
    simp [OnExecutionReport, h1, h3, h4]

/-- Witness for C5: the idempotence theorem applied to a concrete trade and
a concrete stale report that matches the entry order, showing the no-op
branch at that input. -/
theorem onExecutionReport_idempotent_witness :
    OnExecutionReport (OnExecutionReport ⟨10, some 11, TradeStatus.entryPending, 5, 100, 0, 0⟩
        ⟨10, 3, 99, false⟩) ⟨10, 3, 99, false⟩ =
      OnExecutionReport ⟨10, some 11, TradeStatus.entryPending, 5, 100, 0, 0⟩ ⟨10, 3, 99, false⟩ ∧
    OnExecutionReport ⟨10, some 11, TradeStatus.entryPending, 5, 100, 0, 0⟩ ⟨10, 3, 99, false⟩ =
      ⟨10, some 11, TradeStatus.entryPending, 5, 100, 0, 0⟩ :=
  ⟨(onExecutionReport_idempotent ⟨10, some 11, TradeStatus.entryPending, 5, 100, 0, 0⟩
      ⟨10, 3, 99, false⟩).1,
   (onExecutionReport_idempotent ⟨10, some 11, TradeStatus.entryPending, 5, 100, 0, 0⟩
      ⟨10, 3, 99, false⟩).2.1 rfl (by decide)⟩

end Maker
